import Mathlib

/-!
# Verification of the in-memory ring stream buffer (ringbuf.c)

Shallow embedding of the stream filter's shared state and of its
lock-protected operations.  Every definition is translated from the C
source: `stream_sys_t` becomes `StreamSys`, the `_l` helpers become pure
state transformers (their blocking loops become one-shot decision
functions whose `wait` result stands for "the loop performs a timed wait
and re-evaluates"), and the producer thread's seek handling becomes an
explicit step on the state.

C `int` fields are modelled as `Int` (no reachable value approaches
2^31, except where noted C arithmetic is exact); C `uint64_t` fields are
kept in `[0, 2^64)` by wrapping every assignment with `u64`, and the C
`%` on signed ints is `Int.tmod` (truncated remainder, as in C99).
-/

set_option autoImplicit false

namespace Ringbuf

/-- `RING_BLOCK_SIZE` ( 1 * 1024 * 1024 ). -/
def RING_BLOCK_SIZE : Int := 1 * 1024 * 1024

/-- `RING_BLOCK_COUNT` ( 10 ). -/
def RING_BLOCK_COUNT : Int := 10

/-- `RING_TOTAL_CAPACITY` ( RING_BLOCK_SIZE * RING_BLOCK_COUNT ). -/
def RING_TOTAL_CAPACITY : Int := RING_BLOCK_SIZE * RING_BLOCK_COUNT

/-- `RING_BUFF_RW_GUARD_GAP` ( 1024 ). -/
def RING_BUFF_RW_GUARD_GAP : Int := 1024

/-- `RING_BUFF_SEEK_GUARD_GAP` ( 1 * 1024 * 1024 ). -/
def RING_BUFF_SEEK_GUARD_GAP : Int := 1 * 1024 * 1024

/-- `RING_SEEK_THRESHOLD` ( 1 * 1024 * 1024 ). -/
def RING_SEEK_THRESHOLD : Int := 1 * 1024 * 1024

/-- `BYTES_PER_READ` ( 32 * 1024 ): the producer's per-iteration read size. -/
def BYTES_PER_READ : Int := 32 * 1024

/-- 2^64, the modulus of C `uint64_t` arithmetic. -/
def U64_MOD : Int := 2 ^ 64

/-- Wrap an integer to `uint64_t` range, as C does on assignment to or
overflow of a `uint64_t` (also the effect of adding a negative `int` to a
`uint64_t`).  `Int.emod` by a positive modulus is non-negative, matching
the unsigned result. -/
def u64 (x : Int) : Int := x % U64_MOD

/-- The shared state `stream_sys_t` (the fields the lock-protected logic
reads and writes; the raw byte blocks, mutexes and condition variables are
not data the claims depend on, broadcasts are reported as events by the
steps that perform them). -/
structure StreamSys where
  b_can_seek : Bool
  b_error : Bool
  b_abort : Bool
  i_cache_index : Int
  i_cache_size : Int
  i_cache_offset : Int
  i_buffer_size : Int
  i_read_index : Int
  i_write_index : Int
  i_seek_pos : Int
  b_seek_request : Bool
  i_stream_offset : Int
  b_buffered_eos : Bool
  i_temp_peek_capacity : Int
  deriving Repr, DecidableEq

/-- State right after `sys_Alloc` (memset to zero) and a successful
`Open`: every index, size and offset is 0, every flag is clear;
`b_can_seek` is captured from the source stream. -/
def initState (canSeek : Bool) : StreamSys where
  b_can_seek := canSeek
  b_error := false
  b_abort := false
  i_cache_index := 0
  i_cache_size := 0
  i_cache_offset := 0
  i_buffer_size := 0
  i_read_index := 0
  i_write_index := 0
  i_seek_pos := 0
  b_seek_request := false
  i_stream_offset := 0
  b_buffered_eos := false
  i_temp_peek_capacity := 0

/-- Outcome of one evaluation of a blocking `_l` wait loop: either the
function returns `r` (loop not entered, or a terminal flag breaks out of
it), or it performs a timed wait on the condition variable and will
re-evaluate (`wait`). -/
inductive WaitResult where
  | ret (r : Int)
  | wait
  deriving Repr, DecidableEq

/-- `WaitBufferForRead_l`: decision made each time the loop head and body
are evaluated.  The loop runs while a seek is pending or fewer than
`i_read` bytes are buffered; inside it, `abort` and `error` return the
interrupted sentinel -1, `buffered_eos` returns the current
`i_buffer_size`, and otherwise the consumer does a timed wait. -/
def WaitBufferForRead_l (s : StreamSys) (i_read : Int) : WaitResult :=
  if i_read ≤ 0 then .ret i_read
  else if s.b_seek_request = true ∨ i_read > s.i_buffer_size then
    if s.b_abort = true then .ret (-1)
    else if s.b_error = true then .ret (-1)
    else if s.b_buffered_eos = true then .ret s.i_buffer_size
    else .wait
  else .ret i_read

/-- `WaitBufferForWrite_l`: decision made each time the loop head and body
are evaluated.  The loop runs while
`i_buffer_size + i_write > RING_TOTAL_CAPACITY - RING_BUFF_RW_GUARD_GAP - RING_BUFF_SEEK_GUARD_GAP`;
inside it, `abort` and `error` return -1, and a pending seek with
`i_buffer_size + i_write < RING_TOTAL_CAPACITY - RING_BUFF_RW_GUARD_GAP`
breaks out and permits writing into the seek gap. -/
def WaitBufferForWrite_l (s : StreamSys) (i_write : Int) : WaitResult :=
  if i_write ≤ 0 then .ret i_write
  else if s.i_buffer_size + i_write >
      RING_TOTAL_CAPACITY - RING_BUFF_RW_GUARD_GAP - RING_BUFF_SEEK_GUARD_GAP then
    if s.b_abort = true then .ret (-1)
    else if s.b_error = true then .ret (-1)
    else if s.b_seek_request = true ∧
        s.i_buffer_size + i_write < RING_TOTAL_CAPACITY - RING_BUFF_RW_GUARD_GAP then
      .ret i_write
    else .wait
  else .ret i_write

/-- Index/size bookkeeping of `WriteToBuffer_l` after `n` bytes have been
copied into the ring (lines after the copy loop): advance `i_buffer_size`
and `i_write_index`, grow `i_cache_size`, and when `i_cache_size`
exceeds the capacity slide the cache window by
`i_diff = i_cache_size - RING_TOTAL_CAPACITY - RING_BUFF_RW_GUARD_GAP - RING_BUFF_SEEK_GUARD_GAP`
(the C expression, with C's left-to-right subtraction). -/
def WriteToBuffer_commit (s : StreamSys) (n : Int) : StreamSys :=
  let s1 := { s with
    i_buffer_size := s.i_buffer_size + n
    i_write_index := (s.i_write_index + n).tmod RING_TOTAL_CAPACITY
    i_cache_size := s.i_cache_size + n }
  if s1.i_cache_size > RING_TOTAL_CAPACITY then
    let i_diff := s1.i_cache_size - RING_TOTAL_CAPACITY -
      RING_BUFF_RW_GUARD_GAP - RING_BUFF_SEEK_GUARD_GAP
    { s1 with
      i_cache_offset := u64 (s1.i_cache_offset + i_diff)
      i_cache_size := s1.i_cache_size - i_diff
      i_cache_index := (s1.i_cache_index + i_diff).tmod RING_TOTAL_CAPACITY }
  else s1

/-- Index/size bookkeeping of `ReadFromBuffer_l` after `k` bytes have
been peeked: shrink `i_buffer_size`, advance `i_read_index` modulo the
capacity, advance `i_stream_offset`. -/
def ReadFromBuffer_commit (s : StreamSys) (k : Int) : StreamSys :=
  { s with
    i_buffer_size := s.i_buffer_size - k
    i_read_index := (s.i_read_index + k).tmod RING_TOTAL_CAPACITY
    i_stream_offset := u64 (s.i_stream_offset + k) }

/-- Classification of a pending seek in `BufferThread`. -/
inductive SeekClass where
  | long
  | short
  | middle
  deriving Repr, DecidableEq

/-- The `BufferThread` seek classification against the cache window
`[i_cache_offset, i_cache_offset + i_cache_size)` (all comparisons in
`uint64_t` arithmetic): long when the target is below the window or at
least `RING_SEEK_THRESHOLD` past its end, short when strictly inside it,
middle otherwise. -/
def classifySeek (s : StreamSys) : SeekClass :=
  let cached_start_offset := s.i_cache_offset
  let cached_end_offset := u64 (cached_start_offset + s.i_cache_size)
  if s.i_seek_pos < cached_start_offset ∨
      s.i_seek_pos ≥ u64 (cached_end_offset + RING_SEEK_THRESHOLD) then .long
  else if s.i_seek_pos < cached_end_offset then .short
  else .middle

/-- Result of one seek-handling pass of `BufferThread` (the
`if( p_sys->b_seek_request )` block): the new state, whether
`stream_Seek` was called on the source, and whether
`wakeup_read_cond` was broadcast. -/
structure SeekStepResult where
  state : StreamSys
  didSourceSeek : Bool
  didBroadcastRead : Bool
  deriving Repr, DecidableEq

/-- One seek-handling pass of `BufferThread`, assumed to run with a seek
request pending.  `seekFails` tells whether `stream_Seek` (called only on
the long path) returns a negative value.
Middle: drop the live window (`i_read_index := i_write_index`,
`i_buffer_size := 0`) and leave the request pending.
Short: set `i_stream_offset` to the target, redirect `i_read_index` to
`i_seek_pos % RING_TOTAL_CAPACITY`, recompute `i_buffer_size`, clear the
request and broadcast `wakeup_read_cond`.
Long: seek the source (on failure set `b_error`), then reset the ring and
the cache window to the target, clear the request; no broadcast (the code
guards the broadcast with `!b_long_seek`). -/
def BufferThread_seekStep (s : StreamSys) (seekFails : Bool) : SeekStepResult :=
  match classifySeek s with
  | .middle =>
    { state := { s with i_read_index := s.i_write_index, i_buffer_size := 0 }
      didSourceSeek := false
      didBroadcastRead := false }
  | .short =>
    let i_source_offset := s.i_seek_pos
    let new_read_index := i_source_offset.tmod RING_TOTAL_CAPACITY
    { state := { s with
        i_stream_offset := i_source_offset
        i_read_index := new_read_index
        i_buffer_size :=
          (s.i_write_index + RING_TOTAL_CAPACITY - new_read_index).tmod RING_TOTAL_CAPACITY
        b_seek_request := false
        i_seek_pos := 0 }
      didSourceSeek := false
      didBroadcastRead := true }
  | .long =>
    if seekFails then
      { state := { s with b_error := true }
        didSourceSeek := true
        didBroadcastRead := false }
    else
      let i_source_offset := s.i_seek_pos
      { state := { s with
          i_stream_offset := i_source_offset
          i_cache_index := 0
          i_cache_size := 0
          i_cache_offset := i_source_offset
          i_read_index := i_source_offset.tmod RING_TOTAL_CAPACITY
          i_write_index := i_source_offset.tmod RING_TOTAL_CAPACITY
          i_buffer_size := 0
          b_seek_request := false
          i_seek_pos := 0 }
        didSourceSeek := true
        didBroadcastRead := false }

/-- The loop-head condition of `BufferThread`
(`while( !p_sys->b_abort && !p_sys->b_error )`). -/
def producerLoopGuard (s : StreamSys) : Bool :=
  !s.b_abort && !s.b_error

/-- `Control(STREAM_SET_POSITION, p)`: with `b_can_seek`, record the
target and raise the request (a newer request overwrites an older one);
without it the query fails and the state is untouched. -/
def Control_setPosition (s : StreamSys) (p : Int) : StreamSys :=
  if s.b_can_seek then
    { s with i_seek_pos := u64 p, b_seek_request := true }
  else s

/-- `Control(STREAM_GET_POSITION)`: under the lock, `i_seek_pos` while a
seek is pending, else `i_stream_offset`. -/
def Control_getPosition (s : StreamSys) : Int :=
  if s.b_seek_request then s.i_seek_pos else s.i_stream_offset

/-- The grow test at the head of `Peek`:
`p_sys->i_temp_peek_capacity < i_peek` (both operands unsigned).  When it
holds, `Peek` reallocates the scratch buffer; note the code never stores
the new capacity back into `i_temp_peek_capacity`. -/
def Peek_needsGrow (s : StreamSys) (i_peek : Int) : Bool :=
  decide (s.i_temp_peek_capacity < i_peek)

/-- The atomic (lock-protected) transitions the two threads can perform
on the shared state.  Each constructor names the code path it embeds;
steps taken by the environment (how many bytes `stream_Read` delivered,
when the source reports EOS or an error) carry their nondeterministic
choice as an argument. -/
inductive Step where
  /-- Producer: `stream_Read` delivered `n` bytes (`0 < n ≤ BYTES_PER_READ`)
  and `WriteToBuffer_l` was permitted to commit them. -/
  | produceWrite (n : Int)
  /-- Consumer: `Read(n)` in the immediate-data case
  (no pending seek, `n ≤ i_buffer_size`), committing `n` bytes. -/
  | consumeRead (n : Int)
  /-- Consumer: `Read(n)` when `WaitBufferForRead_l` returned the current
  `i_buffer_size` on `b_buffered_eos`; `ReadFromBuffer_l` then consumes
  exactly that many bytes (none when the buffer is empty). -/
  | consumeReadEos (n : Int)
  /-- Consumer: `Control(STREAM_SET_POSITION, p)`. -/
  | setPosition (p : Int)
  /-- Producer: the `if( p_sys->b_seek_request )` block of `BufferThread`;
  `seekFails` is `stream_Seek`'s verdict on the long path. -/
  | resolveSeek (seekFails : Bool)
  /-- Consumer: `Peek(n)`; the scratch-buffer grow path updates only the
  (unmodelled) allocation, never `i_temp_peek_capacity`, and the ring
  state is read, not written. -/
  | peekCall (n : Int)
  /-- Producer: `stream_Tell ≥ i_stream_size` or a short `stream_Read`
  raised `b_buffered_eos`. -/
  | markEos
  /-- Producer: the EOS park exits on a pending seek and clears
  `b_buffered_eos`. -/
  | resumeFromEos
  /-- Producer: `stream_Read` returned a negative value. -/
  | sourceReadFailed
  /-- `Close` raised `b_abort`. -/
  | setAbort
  deriving Repr, DecidableEq

/-- One guarded transition.  A step whose code-path guard does not hold
leaves the state unchanged (the thread simply cannot take that path). -/
def step (s : StreamSys) : Step → StreamSys
  | .produceWrite n =>
    if producerLoopGuard s = true ∧ 0 < n ∧ n ≤ BYTES_PER_READ ∧
        WaitBufferForWrite_l s n = .ret n then
      WriteToBuffer_commit s n
    else s
  | .consumeRead n =>
    if s.b_seek_request = false ∧ 0 < n ∧ n ≤ s.i_buffer_size then
      ReadFromBuffer_commit s n
    else s
  | .consumeReadEos n =>
    if 0 < n ∧ WaitBufferForRead_l s n = .ret s.i_buffer_size ∧
        0 < s.i_buffer_size then
      ReadFromBuffer_commit s s.i_buffer_size
    else s
  | .setPosition p => Control_setPosition s p
  | .resolveSeek seekFails =>
    if producerLoopGuard s = true ∧ s.b_seek_request = true then
      (BufferThread_seekStep s seekFails).state
    else s
  | .peekCall _ => s
  | .markEos => { s with b_buffered_eos := true }
  | .resumeFromEos =>
    if s.b_buffered_eos = true ∧ s.b_seek_request = true then
      { s with b_buffered_eos := false }
    else s
  | .sourceReadFailed =>
    if producerLoopGuard s = true then { s with b_error := true } else s
  | .setAbort => { s with b_abort := true }

/-- Run a list of steps from a state; a state is reachable when it is
`runSteps (initState canSeek) l` for some step list `l`. -/
def runSteps (s : StreamSys) : List Step → StreamSys
  | [] => s
  | st :: rest => runSteps (step s st) rest

/-! ### Numeric values of the configuration constants -/

theorem cap_val : RING_TOTAL_CAPACITY = 10485760 := by
  norm_num [RING_TOTAL_CAPACITY, RING_BLOCK_SIZE, RING_BLOCK_COUNT]

theorem rw_gap_val : RING_BUFF_RW_GUARD_GAP = 1024 := rfl

theorem seek_gap_val : RING_BUFF_SEEK_GUARD_GAP = 1048576 := by
  norm_num [RING_BUFF_SEEK_GUARD_GAP]

theorem thresh_val : RING_SEEK_THRESHOLD = 1048576 := by
  norm_num [RING_SEEK_THRESHOLD]

theorem bytes_per_read_val : BYTES_PER_READ = 32768 := by
  norm_num [BYTES_PER_READ]

/-! ### Running traces -/

theorem runSteps_cons (s : StreamSys) (a : Step) (l : List Step) :
    runSteps s (a :: l) = runSteps (step s a) l := rfl

theorem runSteps_append (s : StreamSys) (l1 l2 : List Step) :
    runSteps s (l1 ++ l2) = runSteps (runSteps s l1) l2 := by
  induction l1 generalizing s with
  | nil => rfl
  | cons a t ih => simp [runSteps, ih]

/-- The state after `j` further bytes have been written by the producer
with no cache slide: live and cache windows both grew by `j`. -/
def wState (s : StreamSys) (j : Int) : StreamSys :=
  { s with
    i_buffer_size := s.i_buffer_size + j
    i_write_index := s.i_write_index + j
    i_cache_size := s.i_cache_size + j }

/-- One permitted producer write of 32768 bytes, in a state where neither
the write gate nor the cache slide fires. -/
theorem produceWrite_step_closed (s : StreamSys)
    (hguard : producerLoopGuard s = true)
    (hb : s.i_buffer_size + 32768 ≤ 9436160)
    (hw : 0 ≤ s.i_write_index) (hw2 : s.i_write_index + 32768 < 10485760)
    (hc : s.i_cache_size + 32768 ≤ 10485760) :
    step s (.produceWrite 32768) = wState s 32768 := by
  have hwait : WaitBufferForWrite_l s 32768 = .ret 32768 := by
    unfold WaitBufferForWrite_l
    simp only [cap_val, rw_gap_val, seek_gap_val]
    rw [if_neg (by norm_num), if_neg (by omega)]
  have htm : (s.i_write_index + 32768).tmod RING_TOTAL_CAPACITY =
      s.i_write_index + 32768 := by
    rw [Int.tmod_eq_emod (by omega) (by rw [cap_val]; norm_num)]
    exact Int.emod_eq_of_lt (by omega) (by rw [cap_val]; omega)
  simp only [step]
  rw [if_pos ⟨hguard, (by norm_num), (by rw [bytes_per_read_val]), hwait⟩]
  unfold WriteToBuffer_commit wState
  simp only
  rw [htm, if_neg (by simp only [cap_val]; omega)]

/-- `k` consecutive permitted producer writes of 32768 bytes, while the
write gate and the cache slide never fire. -/
theorem produceWrite_repeat_closed (k : Nat) (s : StreamSys)
    (hguard : producerLoopGuard s = true)
    (hb : s.i_buffer_size + 32768 * (k : Int) ≤ 9436160)
    (hw : 0 ≤ s.i_write_index)
    (hw2 : s.i_write_index + 32768 * (k : Int) < 10485760)
    (hc : s.i_cache_size + 32768 * (k : Int) ≤ 10485760) :
    runSteps s (List.replicate k (.produceWrite 32768)) =
      wState s (32768 * (k : Int)) := by
  induction k with
  | zero =>
    show s = wState s (32768 * ((0 : Nat) : Int))
    simp [wState]
  | succ m ih =>
    have hm : ((m + 1 : Nat) : Int) = (m : Int) + 1 := by push_cast; ring
    rw [hm] at hb hw2 hc
    have hmn : (0 : Int) ≤ (m : Int) := Int.natCast_nonneg m
    rw [List.replicate_succ', runSteps_append,
      ih (by omega) (by omega) (by omega)]
    show step (wState s (32768 * (m : Int))) (.produceWrite 32768) = _
    rw [produceWrite_step_closed (wState s (32768 * (m : Int)))
      (show producerLoopGuard s = true from hguard)
      (show s.i_buffer_size + 32768 * (m : Int) + 32768 ≤ 9436160 by omega)
      (show (0 : Int) ≤ s.i_write_index + 32768 * (m : Int) by omega)
      (show s.i_write_index + 32768 * (m : Int) + 32768 < 10485760 by omega)
      (show s.i_cache_size + 32768 * (m : Int) + 32768 ≤ 10485760 by omega)]
    unfold wState
    simp only [StreamSys.mk.injEq, hm]
    norm_num
    omega

/-! ### C1: the cache-window slide and the `cache_size ≤ CAPACITY` bound -/

/-- Trace driving the cache slide: 287 producer writes of 32768 bytes fill
the live window up to the write gate, the consumer drains it, then 34 more
writes push `i_cache_size` past the capacity on the last one. -/
def c1Trace : List Step :=
  List.replicate 287 (Step.produceWrite 32768) ++
    Step.consumeRead 9404416 ::
      (List.replicate 32 (Step.produceWrite 32768) ++
        [Step.produceWrite 32768, Step.produceWrite 32768])

/-- The reachable state at the end of `c1Trace`. -/
def c1State : StreamSys := runSteps (initState true) c1Trace

/-- `c1Trace` after the consumer drain: live window empty, cache window
covering the first 9404416 stream bytes. -/
def c1s2 : StreamSys :=
  { b_can_seek := true, b_error := false, b_abort := false
    i_cache_index := 0, i_cache_size := 9404416, i_cache_offset := 0
    i_buffer_size := 0, i_read_index := 9404416, i_write_index := 9404416
    i_seek_pos := 0, b_seek_request := false, i_stream_offset := 9404416
    b_buffered_eos := false, i_temp_peek_capacity := 0 }

/-- `c1Trace` just before the last write: `i_cache_size` is exactly the
capacity, so the next write of 32768 bytes enters the slide branch. -/
def c1s4 : StreamSys :=
  { b_can_seek := true, b_error := false, b_abort := false
    i_cache_index := 0, i_cache_size := 10485760, i_cache_offset := 0
    i_buffer_size := 1081344, i_read_index := 9404416, i_write_index := 0
    i_seek_pos := 0, b_seek_request := false, i_stream_offset := 9404416
    b_buffered_eos := false, i_temp_peek_capacity := 0 }

/-- The final state of `c1Trace`: the slide computed
`i_diff = 10518528 - 10485760 - 1024 - 1048576 = -1016832`, so
`i_cache_size` grew to 11535360, `i_cache_index` went negative and
`i_cache_offset` wrapped below zero in `uint64_t`. -/
def c1s5 : StreamSys :=
  { b_can_seek := true, b_error := false, b_abort := false
    i_cache_index := -1016832, i_cache_size := 11535360
    i_cache_offset := 18446744073708534784
    i_buffer_size := 1114112, i_read_index := 9404416, i_write_index := 32768
    i_seek_pos := 0, b_seek_request := false, i_stream_offset := 9404416
    b_buffered_eos := false, i_temp_peek_capacity := 0 }

/-- Evaluation of the `c1Trace` run, composed from the closed forms of
the write bursts and the three remaining single steps. -/
theorem c1State_eval : c1State = c1s5 := by
  have e1 : runSteps (initState true) (List.replicate 287 (Step.produceWrite 32768)) =
      wState (initState true) (32768 * ((287 : Nat) : Int)) :=
    produceWrite_repeat_closed 287 (initState true) (by decide) (by decide)
      (by decide) (by decide) (by decide)
  have e2 : step (wState (initState true) (32768 * ((287 : Nat) : Int)))
      (Step.consumeRead 9404416) = c1s2 := by decide
  have e3 : runSteps c1s2 (List.replicate 32 (Step.produceWrite 32768)) =
      wState c1s2 (32768 * ((32 : Nat) : Int)) :=
    produceWrite_repeat_closed 32 c1s2 (by decide) (by decide)
      (by decide) (by decide) (by decide)
  have e4 : step (wState c1s2 (32768 * ((32 : Nat) : Int)))
      (Step.produceWrite 32768) = c1s4 := by decide
  have e5 : step c1s4 (Step.produceWrite 32768) = c1s5 := by decide
  unfold c1State c1Trace
  rw [runSteps_append, e1, runSteps_cons, e2, runSteps_append, e3,
    runSteps_cons, e4, runSteps_cons, e5]
  rfl

/-- C1: refuted by the code as written — in the reachable state `c1State`
(reached by producer writes and consumer reads only), the cache-window
slide of `WriteToBuffer_l` has just run and left
`i_cache_size = 11535360 > RING_TOTAL_CAPACITY`, with `i_cache_index`
negative and `i_cache_offset` wrapped to just below 2^64: the slide's
`i_diff` subtracts the guard gaps instead of adding them, so it evicts
too little (here a negative amount).  The claimed invariant
`0 ≤ buffer_size ≤ cache_size ≤ CAPACITY` is the evident intent of the
code and of the slide (which exists precisely to keep the window inside
the capacity), so this is recorded as a code bug, witnessed here by
evaluating the code on the failing trace. -/
theorem cache_slide_overflow_evaluation :
    c1State.i_cache_size = 11535360 ∧
    RING_TOTAL_CAPACITY < c1State.i_cache_size ∧
    c1State.i_cache_index < 0 ∧
    c1State.i_cache_offset = 18446744073708534784 ∧
    c1State.i_buffer_size ≤ c1State.i_cache_size := by
  rw [c1State_eval]
  decide

/-! ### C2: what seek completion clears and broadcasts -/

/-- A reachable state with a pending seek that classifies as long
(target 5000000 is at least `RING_SEEK_THRESHOLD` past the empty initial
cache window). -/
def c2State : StreamSys := runSteps (initState true) [Step.setPosition 5000000]

/-- C2 counterexample: completing a long seek resolution clears
`b_seek_request` but does not broadcast the consumer wakeup — the code
guards the broadcast with `!b_long_seek` — so the claim that both short
and long completions broadcast is false at this reachable state. -/
theorem long_seek_clears_without_broadcast :
    classifySeek c2State = SeekClass.long ∧
    (BufferThread_seekStep c2State false).state.b_seek_request = false ∧
    (BufferThread_seekStep c2State false).didBroadcastRead = false := by
  decide

/-- C2 (amended): a short completion clears `b_seek_request` and
broadcasts the consumer wakeup; a long completion clears
`b_seek_request` without broadcasting; a middle classification leaves
`b_seek_request` as it was, so the next producer iteration re-evaluates
the request. -/
theorem seek_completion_clearing (s : StreamSys) (f : Bool) (hf : f = false) :
    (classifySeek s = SeekClass.short →
      (BufferThread_seekStep s f).state.b_seek_request = false ∧
      (BufferThread_seekStep s f).didBroadcastRead = true) ∧
    (classifySeek s = SeekClass.long →
      (BufferThread_seekStep s f).state.b_seek_request = false ∧
      (BufferThread_seekStep s f).didBroadcastRead = false) ∧
    (classifySeek s = SeekClass.middle →
      (BufferThread_seekStep s f).state.b_seek_request = s.b_seek_request) := by
  subst hf
  refine ⟨fun h => ?_, fun h => ?_, fun h => ?_⟩ <;>
    simp [BufferThread_seekStep, h]

/-- C2 witness: the amended statement applied to the reachable
long-classified state `c2State`. -/
theorem seek_completion_clearing_witness :
    (classifySeek c2State = SeekClass.short →
      (BufferThread_seekStep c2State false).state.b_seek_request = false ∧
      (BufferThread_seekStep c2State false).didBroadcastRead = true) ∧
    (classifySeek c2State = SeekClass.long →
      (BufferThread_seekStep c2State false).state.b_seek_request = false ∧
      (BufferThread_seekStep c2State false).didBroadcastRead = false) ∧
    (classifySeek c2State = SeekClass.middle →
      (BufferThread_seekStep c2State false).state.b_seek_request = c2State.b_seek_request) :=
  seek_completion_clearing c2State false rfl

/-! ### C3: where a short seek redirects the read index -/

/-- A reachable state with a short-classified pending seek in which
`i_cache_index` (0) and `i_cache_offset` (2097152) are not congruent
modulo the capacity: a long seek to 2097152 reset `i_cache_index` to 0
while pointing `i_cache_offset` at the target, then 100 bytes were
buffered and a new seek to 2097152 was posted. -/
def c3Pre : StreamSys := runSteps (initState true)
  [Step.setPosition 2097152, Step.resolveSeek false,
    Step.produceWrite 100, Step.setPosition 2097152]

/-- C3 counterexample: at `c3Pre` the short resolution sets
`i_read_index` to `i_seek_pos % RING_TOTAL_CAPACITY = 2097152`, while
the claimed formula
`(cache_index + (seek_pos − cache_offset)) mod CAPACITY` gives 0. -/
theorem short_seek_read_index_counterexample :
    classifySeek c3Pre = SeekClass.short ∧
    (BufferThread_seekStep c3Pre false).state.i_read_index = 2097152 ∧
    (c3Pre.i_cache_index + (c3Pre.i_seek_pos - c3Pre.i_cache_offset)) %
      RING_TOTAL_CAPACITY = 0 ∧
    (BufferThread_seekStep c3Pre false).state.i_read_index ≠
      (c3Pre.i_cache_index + (c3Pre.i_seek_pos - c3Pre.i_cache_offset)) %
        RING_TOTAL_CAPACITY := by
  decide

/-- C3 (amended): a short resolution sets
`i_read_index = seek_pos mod CAPACITY`, recomputes
`buffer_size = (write_index − read_index) mod CAPACITY`, sets
`stream_offset = seek_pos` and performs no source I/O; the claimed
formula `(cache_index + (seek_pos − cache_offset)) mod CAPACITY` agrees
exactly when `cache_index ≡ cache_offset (mod CAPACITY)`. -/
theorem short_seek_resolution (s : StreamSys)
    (hclass : classifySeek s = SeekClass.short)
    (hsp : 0 ≤ s.i_seek_pos)
    (hwi : 0 ≤ s.i_write_index) (hwi2 : s.i_write_index < RING_TOTAL_CAPACITY) :
    (BufferThread_seekStep s false).state.i_read_index =
      s.i_seek_pos % RING_TOTAL_CAPACITY ∧
    (BufferThread_seekStep s false).state.i_buffer_size =
      (s.i_write_index - s.i_seek_pos % RING_TOTAL_CAPACITY) % RING_TOTAL_CAPACITY ∧
    (BufferThread_seekStep s false).state.i_stream_offset = s.i_seek_pos ∧
    (BufferThread_seekStep s false).didSourceSeek = false ∧
    (s.i_cache_index % RING_TOTAL_CAPACITY = s.i_cache_offset % RING_TOTAL_CAPACITY →
      (BufferThread_seekStep s false).state.i_read_index =
        (s.i_cache_index + (s.i_seek_pos - s.i_cache_offset)) % RING_TOTAL_CAPACITY) := by
  simp only [BufferThread_seekStep, hclass]
  simp only [cap_val] at hwi2 ⊢
  have htm : s.i_seek_pos.tmod 10485760 = s.i_seek_pos % 10485760 :=
    Int.tmod_eq_emod hsp (by norm_num)
  have hr1 : 0 ≤ s.i_seek_pos % 10485760 := Int.emod_nonneg _ (by norm_num)
  have hr2 : s.i_seek_pos % 10485760 < 10485760 :=
    Int.emod_lt_of_pos _ (by norm_num)
  rw [htm]
  have htm2 : (s.i_write_index + 10485760 - s.i_seek_pos % 10485760).tmod 10485760 =
      (s.i_write_index + 10485760 - s.i_seek_pos % 10485760) % 10485760 :=
    Int.tmod_eq_emod (by omega) (by norm_num)
  rw [htm2]
  refine ⟨?_, ?_, ?_, ?_, ?_⟩ <;>
    first
      | rfl
      | trivial
      | omega

/-- C3 witness: the amended statement applied to the reachable
short-classified state `c3Pre`. -/
theorem short_seek_resolution_witness :
    (BufferThread_seekStep c3Pre false).state.i_read_index =
      c3Pre.i_seek_pos % RING_TOTAL_CAPACITY ∧
    (BufferThread_seekStep c3Pre false).state.i_buffer_size =
      (c3Pre.i_write_index - c3Pre.i_seek_pos % RING_TOTAL_CAPACITY) %
        RING_TOTAL_CAPACITY ∧
    (BufferThread_seekStep c3Pre false).state.i_stream_offset = c3Pre.i_seek_pos ∧
    (BufferThread_seekStep c3Pre false).didSourceSeek = false ∧
    (c3Pre.i_cache_index % RING_TOTAL_CAPACITY =
        c3Pre.i_cache_offset % RING_TOTAL_CAPACITY →
      (BufferThread_seekStep c3Pre false).state.i_read_index =
        (c3Pre.i_cache_index + (c3Pre.i_seek_pos - c3Pre.i_cache_offset)) %
          RING_TOTAL_CAPACITY) :=
  short_seek_resolution c3Pre (by decide) (by decide) (by decide) (by decide)

/-! ### C4: the write gate and its seek-pending relaxation -/

/-- One permitted producer write of `n ≤ 32768` bytes through the
seek-pending relaxation of the gate (covers the strict gate as well),
in a state where the cache slide does not fire. -/
theorem produceWrite_step_relaxed (s : StreamSys) (n : Int)
    (hguard : producerLoopGuard s = true)
    (hn : 0 < n) (hn2 : n ≤ 32768)
    (hseek : s.b_seek_request = true)
    (hb : s.i_buffer_size + n < 10484736)
    (hw : 0 ≤ s.i_write_index) (hw2 : s.i_write_index + n < 10485760)
    (hc : s.i_cache_size + n ≤ 10485760) :
    step s (.produceWrite n) = wState s n := by
  have hflags : s.b_abort = false ∧ s.b_error = false := by
    unfold producerLoopGuard at hguard
    constructor <;> [skip; skip] <;>
      simp_all [Bool.and_eq_true, Bool.not_eq_true']
  have hwait : WaitBufferForWrite_l s n = .ret n := by
    unfold WaitBufferForWrite_l
    simp only [cap_val, rw_gap_val, seek_gap_val]
    rw [if_neg (by omega)]
    split_ifs with h1 h2 h3 h4
    · exact absurd h2 (by simp [hflags.1])
    · exact absurd h3 (by simp [hflags.2])
    · rfl
    · exact absurd ⟨hseek, by omega⟩ h4
    · rfl
  have htm : (s.i_write_index + n).tmod RING_TOTAL_CAPACITY =
      s.i_write_index + n := by
    rw [Int.tmod_eq_emod (by omega) (by rw [cap_val]; norm_num)]
    exact Int.emod_eq_of_lt (by omega) (by rw [cap_val]; omega)
  simp only [step]
  rw [if_pos ⟨hguard, hn, (by rw [bytes_per_read_val]; omega), hwait⟩]
  unfold WriteToBuffer_commit wState
  simp only
  rw [htm, if_neg (by simp only [cap_val]; omega)]

/-- `k` consecutive permitted producer writes of 32768 bytes while a
seek is pending, all inside the relaxed gate and without a cache
slide. -/
theorem produceWrite_repeat_relaxed (k : Nat) (s : StreamSys)
    (hguard : producerLoopGuard s = true)
    (hseek : s.b_seek_request = true)
    (hb : s.i_buffer_size + 32768 * (k : Int) < 10484736)
    (hw : 0 ≤ s.i_write_index)
    (hw2 : s.i_write_index + 32768 * (k : Int) < 10485760)
    (hc : s.i_cache_size + 32768 * (k : Int) ≤ 10485760) :
    runSteps s (List.replicate k (.produceWrite 32768)) =
      wState s (32768 * (k : Int)) := by
  induction k with
  | zero =>
    show s = wState s (32768 * ((0 : Nat) : Int))
    simp [wState]
  | succ m ih =>
    have hm : ((m + 1 : Nat) : Int) = (m : Int) + 1 := by push_cast; ring
    rw [hm] at hb hw2 hc
    have hmn : (0 : Int) ≤ (m : Int) := Int.natCast_nonneg m
    rw [List.replicate_succ', runSteps_append,
      ih (by omega) (by omega) (by omega)]
    show step (wState s (32768 * (m : Int))) (.produceWrite 32768) = _
    rw [produceWrite_step_relaxed (wState s (32768 * (m : Int))) 32768
      (show producerLoopGuard s = true from hguard)
      (by norm_num) (by norm_num)
      (show s.b_seek_request = true from hseek)
      (show s.i_buffer_size + 32768 * (m : Int) + 32768 < 10484736 by omega)
      (show (0 : Int) ≤ s.i_write_index + 32768 * (m : Int) by omega)
      (show s.i_write_index + 32768 * (m : Int) + 32768 < 10485760 by omega)
      (show s.i_cache_size + 32768 * (m : Int) + 32768 ≤ 10485760 by omega)]
    unfold wState
    simp only [StreamSys.mk.injEq, hm]
    norm_num
    omega

/-- A reachable state with a pending seek and `i_buffer_size = 10484735`:
a seek to 5 is posted, then 319 writes of 32768 bytes and one of 31743
bytes all pass the relaxed gate (each needs
`buffer + n < CAPACITY − RW_GAP`). -/
def c4Pre : StreamSys := runSteps (initState true)
  (Step.setPosition 5 ::
    (List.replicate 319 (Step.produceWrite 32768) ++ [Step.produceWrite 31743]))

/-- The explicit value of `c4Pre`. -/
def c4s : StreamSys :=
  { b_can_seek := true, b_error := false, b_abort := false
    i_cache_index := 0, i_cache_size := 10484735, i_cache_offset := 0
    i_buffer_size := 10484735, i_read_index := 0, i_write_index := 10484735
    i_seek_pos := 5, b_seek_request := true, i_stream_offset := 0
    b_buffered_eos := false, i_temp_peek_capacity := 0 }

/-- Evaluation of the `c4Pre` trace. -/
theorem c4Pre_eval : c4Pre = c4s := by
  have e0 : step (initState true) (Step.setPosition 5) =
      Control_setPosition (initState true) 5 := rfl
  have e1 : runSteps (Control_setPosition (initState true) 5)
      (List.replicate 319 (Step.produceWrite 32768)) =
      wState (Control_setPosition (initState true) 5) (32768 * ((319 : Nat) : Int)) :=
    produceWrite_repeat_relaxed 319 _ (by decide) (by decide) (by decide)
      (by decide) (by decide) (by decide)
  have e2 : step (wState (Control_setPosition (initState true) 5)
      (32768 * ((319 : Nat) : Int))) (Step.produceWrite 31743) = c4s := by
    rw [produceWrite_step_relaxed _ 31743 (by decide) (by decide) (by decide)
      (by decide) (by decide) (by decide) (by decide) (by decide)]
    decide
  unfold c4Pre
  rw [runSteps_cons, e0, runSteps_append, e1, runSteps_cons, e2]
  rfl

/-- C4 counterexample: in the reachable state `c4Pre` (seek pending,
`i_buffer_size = 10484735`), a write of 1 byte satisfies the claim's
permission condition `buffer_size + n ≤ CAPACITY − RW_GAP` with equality,
yet `WaitBufferForWrite_l` keeps waiting: the code's relaxation is the
strict inequality `buffer_size + n < CAPACITY − RW_GAP`. -/
theorem write_gate_boundary_counterexample :
    c4Pre.b_seek_request = true ∧
    c4Pre.i_buffer_size + 1 ≤ RING_TOTAL_CAPACITY - RING_BUFF_RW_GUARD_GAP ∧
    WaitBufferForWrite_l c4Pre 1 = WaitResult.wait := by
  rw [c4Pre_eval]
  decide

/-- C4 (amended): for a write of `n > 0` bytes with neither `abort` nor
`error` raised, `WaitBufferForWrite_l` permits the write exactly when
`buffer_size + n < CAPACITY − RW_GAP` (strict) while a seek is pending,
and exactly when `buffer_size + n ≤ CAPACITY − RW_GAP − SEEK_GAP` when
none is. -/
theorem wait_for_write_characterization (s : StreamSys) (n : Int)
    (hn : 0 < n) (ha : s.b_abort = false) (he : s.b_error = false) :
    (s.b_seek_request = true →
      (WaitBufferForWrite_l s n = WaitResult.ret n ↔
        s.i_buffer_size + n < RING_TOTAL_CAPACITY - RING_BUFF_RW_GUARD_GAP)) ∧
    (s.b_seek_request = false →
      (WaitBufferForWrite_l s n = WaitResult.ret n ↔
        s.i_buffer_size + n ≤
          RING_TOTAL_CAPACITY - RING_BUFF_RW_GUARD_GAP - RING_BUFF_SEEK_GUARD_GAP)) := by
  unfold WaitBufferForWrite_l
  simp only [cap_val, rw_gap_val, seek_gap_val]
  rw [if_neg (by omega)]
  refine ⟨fun hseek => ?_, fun hseek => ?_⟩ <;>
    split_ifs with h1 h2 h3 h4 <;>
      simp_all <;> omega

/-- C4 witness: the amended characterization applied to the reachable
state `c2State` (seek pending, empty buffer) and a 100-byte write. -/
theorem wait_for_write_characterization_witness :
    (c2State.b_seek_request = true →
      (WaitBufferForWrite_l c2State 100 = WaitResult.ret 100 ↔
        c2State.i_buffer_size + 100 <
          RING_TOTAL_CAPACITY - RING_BUFF_RW_GUARD_GAP)) ∧
    (c2State.b_seek_request = false →
      (WaitBufferForWrite_l c2State 100 = WaitResult.ret 100 ↔
        c2State.i_buffer_size + 100 ≤
          RING_TOTAL_CAPACITY - RING_BUFF_RW_GUARD_GAP -
            RING_BUFF_SEEK_GUARD_GAP)) :=
  wait_for_write_characterization c2State 100 (by decide) (by decide) (by decide)

/-! ### C5: classification at the window boundaries -/

theorem u64_mod_val : U64_MOD = 18446744073709551616 := by norm_num [U64_MOD]

/-- A reachable state with an empty cache window at offset 2097152 (set
by a long seek) and a pending seek to
`cache_offset + cache_size − 1 = 2097151`. -/
def c5Pre : StreamSys := runSteps (initState true)
  [Step.setPosition 2097152, Step.resolveSeek false, Step.setPosition 2097151]

/-- C5 counterexample: with an empty cache window, a pending seek to
exactly `cache_offset + cache_size − 1` lies below the window and
classifies as long, not short; the claim's short boundary needs
`cache_size ≥ 1`. -/
theorem empty_window_short_boundary_counterexample :
    c5Pre.i_cache_size = 0 ∧
    c5Pre.i_seek_pos = c5Pre.i_cache_offset + c5Pre.i_cache_size - 1 ∧
    classifySeek c5Pre = SeekClass.long ∧
    classifySeek c5Pre ≠ SeekClass.short := by decide

/-- A state whose cache window is `[co, co + cs)` with a pending seek to
`sp` (every other field as freshly initialised). -/
def mkSeekState (co cs sp : Int) : StreamSys :=
  { initState true with
    i_cache_offset := co
    i_cache_size := cs
    i_seek_pos := sp
    b_seek_request := true }

/-- C5 (amended): for every cache window whose offsets stay below the
`uint64_t` range, a pending seek to exactly
`cache_offset + cache_size − 1` classifies short provided the window is
non-empty (`cache_size ≥ 1`); seeks to exactly `cache_offset + cache_size`
and `cache_offset + cache_size + SEEK_THRESHOLD` classify middle and
long for every window. -/
theorem seek_boundary_classification (co cs : Int) (hco : 0 ≤ co) (hcs : 0 ≤ cs)
    (hbound : co + cs + RING_SEEK_THRESHOLD < U64_MOD) :
    (1 ≤ cs → classifySeek (mkSeekState co cs (co + cs - 1)) = SeekClass.short) ∧
    classifySeek (mkSeekState co cs (co + cs)) = SeekClass.middle ∧
    classifySeek (mkSeekState co cs (co + cs + RING_SEEK_THRESHOLD)) =
      SeekClass.long := by
  rw [thresh_val, u64_mod_val] at hbound
  rw [thresh_val]
  have h1 : u64 (co + cs) = co + cs := by
    unfold u64
    rw [u64_mod_val]
    exact Int.emod_eq_of_lt (by omega) (by omega)
  have h2 : u64 ((co + cs) + 1048576) = co + cs + 1048576 := by
    unfold u64
    rw [u64_mod_val]
    exact Int.emod_eq_of_lt (by omega) (by omega)
  unfold classifySeek mkSeekState
  simp only [thresh_val, h1, h2]
  refine ⟨fun hcs1 => ?_, ?_, ?_⟩
  · rw [if_neg (by omega), if_pos (by omega)]
  · rw [if_neg (by omega), if_neg (by omega)]
  · rw [if_pos (by omega)]

/-- C5 witness: the boundary classification at the window `[0, 1)`. -/
theorem seek_boundary_classification_witness :
    (1 ≤ (1 : Int) →
      classifySeek (mkSeekState 0 1 (0 + 1 - 1)) = SeekClass.short) ∧
    classifySeek (mkSeekState 0 1 (0 + 1)) = SeekClass.middle ∧
    classifySeek (mkSeekState 0 1 (0 + 1 + RING_SEEK_THRESHOLD)) =
      SeekClass.long :=
  seek_boundary_classification 0 1 (by norm_num) (by norm_num)
    (by norm_num [RING_SEEK_THRESHOLD, U64_MOD])

/-! ### C6: set_position / get_position round trip -/

/-- C6: after `set_position(p)` with `can_seek`, `get_position` returns
`p`; it still returns `p` after any producer write step (the request is
untouched); once the producer completes a non-middle resolution,
`seek_pending` is cleared, `get_position` still returns `p` (now from
`stream_offset`), and after consuming `k` further bytes it returns
`p + k` — i.e. `get_position` is `seek_pos` while a seek is pending and
`stream_offset` otherwise. -/
theorem set_get_position_roundtrip (s : StreamSys) (p k n : Int)
    (hcan : s.b_can_seek = true) (hp : 0 ≤ p) (hp2 : p < U64_MOD)
    (hk : 0 ≤ k) (hpk : p + k < U64_MOD)
    (hnm : classifySeek (Control_setPosition s p) ≠ SeekClass.middle) :
    Control_getPosition (Control_setPosition s p) = p ∧
    Control_getPosition (step (Control_setPosition s p) (.produceWrite n)) = p ∧
    ((BufferThread_seekStep (Control_setPosition s p) false).state.b_seek_request =
        false ∧
      Control_getPosition
        (BufferThread_seekStep (Control_setPosition s p) false).state = p ∧
      Control_getPosition (ReadFromBuffer_commit
        (BufferThread_seekStep (Control_setPosition s p) false).state k) =
        p + k) := by
  have hup : u64 p = p := by
    unfold u64
    exact Int.emod_eq_of_lt hp hp2
  have hupk : u64 (p + k) = p + k := by
    unfold u64
    exact Int.emod_eq_of_lt (by omega) hpk
  have hs1 : Control_setPosition s p =
      { s with i_seek_pos := p, b_seek_request := true } := by
    unfold Control_setPosition
    rw [if_pos hcan, hup]
  rw [hs1] at hnm ⊢
  refine ⟨by simp [Control_getPosition], ?_, ?_⟩
  · simp only [step]
    split_ifs with hg
    · simp only [WriteToBuffer_commit]
      split_ifs <;> simp [Control_getPosition]
    · simp [Control_getPosition]
  · cases hc : classifySeek { s with i_seek_pos := p, b_seek_request := true } with
    | middle => exact absurd hc hnm
    | short =>
      simp only [BufferThread_seekStep, hc]
      refine ⟨by trivial, by simp [Control_getPosition], ?_⟩
      unfold ReadFromBuffer_commit
      simp [Control_getPosition, hupk]
    | long =>
      simp only [BufferThread_seekStep, hc, Bool.false_eq_true, if_false]
      refine ⟨by trivial, by simp [Control_getPosition], ?_⟩
      unfold ReadFromBuffer_commit
      simp [Control_getPosition, hupk]

/-- C6 witness: the round trip for a long seek to 2097152 from the fresh
state, a 32768-byte producer write while pending, and 7 bytes consumed
after resolution. -/
theorem set_get_position_roundtrip_witness :
    Control_getPosition (Control_setPosition (initState true) 2097152) = 2097152 ∧
    Control_getPosition (step (Control_setPosition (initState true) 2097152)
      (.produceWrite 32768)) = 2097152 ∧
    ((BufferThread_seekStep (Control_setPosition (initState true) 2097152)
        false).state.b_seek_request = false ∧
      Control_getPosition (BufferThread_seekStep
        (Control_setPosition (initState true) 2097152) false).state = 2097152 ∧
      Control_getPosition (ReadFromBuffer_commit
        (BufferThread_seekStep (Control_setPosition (initState true) 2097152)
          false).state 7) = 2097152 + 7) :=
  set_get_position_roundtrip (initState true) 2097152 7 32768 (by decide)
    (by decide) (by decide) (by decide) (by decide) (by decide)

/-! ### C7: a source read failure is terminal -/

/-- C7: when `stream_Read` returns a negative value, the producer sets
`b_error` and its loop guard goes false (the loop exits, no retry);
afterwards every consumer call that enters the wait loop of
`WaitBufferForRead_l` (a seek is pending or fewer than `n` bytes are
buffered) returns the negative interrupted sentinel. -/
theorem source_read_failure_terminal (s : StreamSys) (n : Int)
    (ha : s.b_abort = false) (he : s.b_error = false) (hn : 0 < n)
    (hwait : s.b_seek_request = true ∨ s.i_buffer_size < n) :
    (step s Step.sourceReadFailed).b_error = true ∧
    producerLoopGuard (step s Step.sourceReadFailed) = false ∧
    WaitBufferForRead_l (step s Step.sourceReadFailed) n = WaitResult.ret (-1) := by
  have hg : producerLoopGuard s = true := by
    unfold producerLoopGuard
    rw [ha, he]
    rfl
  have hstep : step s Step.sourceReadFailed = { s with b_error := true } := by
    unfold step
    rw [if_pos hg]
  rw [hstep]
  refine ⟨rfl, by unfold producerLoopGuard; simp, ?_⟩
  unfold WaitBufferForRead_l
  rw [if_neg (by omega), if_pos (by simpa using hwait), if_neg (by simp [ha])]
  simp

/-- C7 witness: the failure step from the fresh state and a subsequent
5-byte read that must wait (empty buffer). -/
theorem source_read_failure_terminal_witness :
    (step (initState true) Step.sourceReadFailed).b_error = true ∧
    producerLoopGuard (step (initState true) Step.sourceReadFailed) = false ∧
    WaitBufferForRead_l (step (initState true) Step.sourceReadFailed) 5 =
      WaitResult.ret (-1) :=
  source_read_failure_terminal (initState true) 5 (by decide) (by decide)
    (by decide) (Or.inr (by decide))

/-! ### C9: buffered EOS short-circuits a wait behind a pending seek -/

/-- C9: with `b_buffered_eos` set while a seek request is pending (and
neither `abort` nor `error`), `WaitBufferForRead_l` returns the current
`i_buffer_size` instead of waiting for the seek to resolve; the read
commit that consumes those bytes leaves the seek request pending, so the
bytes belong to the pre-seek stream position. -/
theorem eos_overrides_pending_seek_wait (s : StreamSys) (n : Int)
    (hn : 0 < n) (hseek : s.b_seek_request = true)
    (heos : s.b_buffered_eos = true)
    (ha : s.b_abort = false) (he : s.b_error = false) :
    WaitBufferForRead_l s n = WaitResult.ret s.i_buffer_size ∧
    (ReadFromBuffer_commit s s.i_buffer_size).b_seek_request = true := by
  constructor
  · unfold WaitBufferForRead_l
    rw [if_neg (by omega), if_pos (Or.inl hseek), if_neg (by simp [ha]),
      if_neg (by simp [he]), if_pos heos]
  · unfold ReadFromBuffer_commit
    simpa using hseek

/-- C9 witness: a seek to 7 is posted and the producer marks EOS; a
3-byte read then gets the current (empty) buffer size at once. -/
theorem eos_overrides_pending_seek_wait_witness :
    WaitBufferForRead_l
      (step (Control_setPosition (initState true) 7) Step.markEos) 3 =
      WaitResult.ret (step (Control_setPosition (initState true) 7)
        Step.markEos).i_buffer_size ∧
    (ReadFromBuffer_commit
      (step (Control_setPosition (initState true) 7) Step.markEos)
      (step (Control_setPosition (initState true) 7)
        Step.markEos).i_buffer_size).b_seek_request = true :=
  eos_overrides_pending_seek_wait
    (step (Control_setPosition (initState true) 7) Step.markEos) 3
    (by decide) (by decide) (by decide) (by decide) (by decide)

/-! ### C10: the scratch-peek capacity is never recorded -/

theorem step_preserves_peek_capacity (s : StreamSys) (st : Step) :
    (step s st).i_temp_peek_capacity = s.i_temp_peek_capacity := by
  cases st with
  | produceWrite n =>
    simp only [step]
    split_ifs with h
    · simp only [WriteToBuffer_commit]
      split_ifs <;> rfl
    · rfl
  | consumeRead n =>
    simp only [step]
    split_ifs <;> rfl
  | consumeReadEos n =>
    simp only [step]
    split_ifs <;> rfl
  | setPosition p =>
    simp only [step, Control_setPosition]
    split_ifs <;> rfl
  | resolveSeek f =>
    simp only [step]
    split_ifs with h
    · cases hc : classifySeek s <;> simp only [BufferThread_seekStep, hc] <;>
        first
          | rfl
          | (split_ifs <;> rfl)
    · rfl
  | peekCall n => rfl
  | markEos => rfl
  | resumeFromEos =>
    simp only [step]
    split_ifs <;> rfl
  | sourceReadFailed =>
    simp only [step]
    split_ifs <;> rfl
  | setAbort => rfl

theorem runSteps_preserves_peek_capacity (l : List Step) (s : StreamSys) :
    (runSteps s l).i_temp_peek_capacity = s.i_temp_peek_capacity := by
  induction l generalizing s with
  | nil => rfl
  | cons a t ih => rw [runSteps_cons, ih, step_preserves_peek_capacity]

/-- C10: `i_temp_peek_capacity` is 0 in every reachable state — no
operation (in particular not the scratch-grow path of `Peek`, which
reallocates without storing the new capacity) ever writes it — so every
`Peek` call with `n > 0` finds `capacity < n` and takes the grow path
again. -/
theorem scratch_capacity_never_recorded (b : Bool) (l : List Step) (n : Int)
    (hn : 0 < n) :
    (runSteps (initState b) l).i_temp_peek_capacity = 0 ∧
    Peek_needsGrow (runSteps (initState b) l) n = true := by
  have h0 : (runSteps (initState b) l).i_temp_peek_capacity = 0 := by
    rw [runSteps_preserves_peek_capacity]
    rfl
  refine ⟨h0, ?_⟩
  simp only [Peek_needsGrow, h0, decide_eq_true_iff]
  exact hn

/-- C10 witness: a trace with a peek and a write, then a 1-byte peek. -/
theorem scratch_capacity_never_recorded_witness :
    (runSteps (initState true)
      [Step.peekCall 5, Step.produceWrite 100]).i_temp_peek_capacity = 0 ∧
    Peek_needsGrow (runSteps (initState true)
      [Step.peekCall 5, Step.produceWrite 100]) 1 = true :=
  scratch_capacity_never_recorded true [Step.peekCall 5, Step.produceWrite 100] 1
    (by decide)

end Ringbuf
